import Mathlib

/-!
Verification of the shader-source splitter and GPU pipeline of
`src/Application.cpp`. Strings are modelled as lists of characters, the
line-by-line input stream as a list of lines, and the GPU driver calls of
`CompileShader`, `CreateShader` and `main` as an event trace parameterised
by the driver's observable answers (handles handed out, compile status,
info logs).
-/

/-- `line.find (pat) != std::string::npos`: Bool substring test. -/
def hasTok (line pat : List Char) : Bool :=
  pat.isPrefixOf line ||
    match line with
    | [] => false
    | _ :: rest => hasTok rest pat

/-- The marker token `#shader` (line 49 of Application.cpp). -/
def marker : List Char := "#shader".toList

/-- The keyword `vertex` (line 51). -/
def vertexTok : List Char := "vertex".toList

/-- The keyword `fragment` (line 53). -/
def fragmentTok : List Char := "fragment".toList

/-- `enum class ShaderType` (lines 37-40). -/
inductive ShaderType where
  | NONE
  | VERTEX
  | FRAGMENT
deriving DecidableEq, Repr

/-- `struct ShaderProgramSource` (lines 26-30). -/
structure ShaderProgramSource where
  VertexSource : List Char
  FragmentSource : List Char
deriving DecidableEq, Repr

/-- The `while (getline ...)` loop of `ParseShader` (lines 47-61): state is the
current `ShaderType` and the two accumulated buffers `ss[0]`, `ss[1]`. -/
def parseLoop : ShaderType → List Char → List Char → List (List Char) → List Char × List Char
  | _, v, f, [] => (v, f)
  | ty, v, f, line :: rest =>
    if hasTok line marker then
      if hasTok line vertexTok then parseLoop ShaderType.VERTEX v f rest
      else if hasTok line fragmentTok then parseLoop ShaderType.FRAGMENT v f rest
      else parseLoop ty v f rest
    else
      match ty with
      | ShaderType.NONE => parseLoop ShaderType.NONE v f rest
      | ShaderType.VERTEX => parseLoop ShaderType.VERTEX (v ++ line ++ ['\n']) f rest
      | ShaderType.FRAGMENT => parseLoop ShaderType.FRAGMENT v (f ++ line ++ ['\n']) rest

/-- `ParseShader` (lines 33-63), taking the stream's lines as input. -/
def ParseShader (lines : List (List Char)) : ShaderProgramSource :=
  let r := parseLoop ShaderType.NONE [] [] lines
  ⟨r.1, r.2⟩

example : ParseShader ["#shader vertex".toList, "a".toList] =
    ⟨"a\n".toList, []⟩ := by decide

example : ParseShader ["foo".toList, "#shader vertex".toList, "bar".toList] =
    ⟨"bar\n".toList, []⟩ := by decide

/-- Modelled from the spec: pairs each non-marker line of the input with the
section that is active when it is read, following the spec's description of
the splitter ("every non-marker line ... in the buffer of the section active
when that line was read"). Used to compare `ParseShader` against the spec. -/
def sectionOfLines : ShaderType → List (List Char) → List (ShaderType × List Char)
  | _, [] => []
  | ty, line :: rest =>
    if hasTok line marker then
      if hasTok line vertexTok then sectionOfLines ShaderType.VERTEX rest
      else if hasTok line fragmentTok then sectionOfLines ShaderType.FRAGMENT rest
      else sectionOfLines ty rest
    else (ty, line) :: sectionOfLines ty rest

/-- The non-marker lines assigned to section `tgt`, starting in section `ty`. -/
def sectionLines (tgt ty : ShaderType) (lines : List (List Char)) : List (List Char) :=
  ((sectionOfLines ty lines).filter (fun p => decide (p.1 = tgt))).map Prod.snd

/-- Join a list of lines, newline-terminating each (the `<< line << std::endl`
appends of line 59). -/
def joinNl (ls : List (List Char)) : List Char :=
  ls.foldr (fun a r => a ++ '\n' :: r) []

/-- Splitting text into lines the way `std::getline` does: lines are separated
by a newline, a final newline does not open a last empty line, and an empty
stream yields no lines. Accumulator-based worker. -/
def getLinesAux (acc : List Char) : List Char → List (List Char)
  | [] => [acc.reverse]
  | c :: rest =>
    if c = '\n' then
      acc.reverse :: (match rest with
        | [] => []
        | _ :: _ => getLinesAux [] rest)
    else getLinesAux (c :: acc) rest

/-- The lines `while (getline(stream, line))` extracts from a character stream. -/
def getLines : List Char → List (List Char)
  | [] => []
  | c :: cs => getLinesAux [] (c :: cs)

example : getLines "a\nb".toList = ["a".toList, "b".toList] := by decide
example : getLines "a\nb\n".toList = ["a".toList, "b".toList] := by decide
example : getLines "\n\n".toList = [[], []] := by decide
example : getLines [] = [] := by decide

/-! ## GPU driver model

The driver is modelled by its observable answers (handles handed out by
`glCreateShader`/`glCreateProgram`, the compile status `glGetShaderiv`
reports, the info-log text) passed as parameters, and each GL entry point
invocation is recorded as an event in a trace. -/

def GL_VERTEX_SHADER : Nat := 0x8B31

def GL_FRAGMENT_SHADER : Nat := 0x8B30

def GL_COMPILE_STATUS : Nat := 0x8B81

def GL_INFO_LOG_LENGTH : Nat := 0x8B84

def GL_LINK_STATUS : Nat := 0x8B82

def GL_VALIDATE_STATUS : Nat := 0x8B83

/-- One GL entry-point invocation (or stdout print / process exit). -/
inductive GLEvent where
  | createShader (ty id : Nat)
  | shaderSource (id : Nat) (src : List Char)
  | compileShader (id : Nat)
  | getShaderiv (id pname : Nat)
  | getShaderInfoLog (id : Nat)
  | printLine (s : List Char)
  | deleteShader (id : Nat)
  | createProgram (id : Nat)
  | attachShader (prog id : Nat)
  | linkProgram (prog : Nat)
  | getProgramiv (prog pname : Nat)
  | validateProgram (prog : Nat)
  | useProgram (prog : Nat)
  | deleteProgram (prog : Nat)
  | genBuffer
  | bindBuffer
  | bufferData
  | enableVertexAttribArray
  | vertexAttribPointer
  | glClear
  | clearErrors
  | drawElements
  | checkErrors
  | assertLogCall
  | swapBuffers
  | pollEvents
  | exitProcess (code : Int)
deriving DecidableEq, Repr

/-- The stage-naming diagnostic of line 83:
`"Failed to compile " << (type == GL_VERTEX_SHADER ? "vertex" : "fragment") << " shader."`. -/
def compileFailMsg (ty : Nat) : List Char :=
  "Failed to compile ".toList
    ++ (if ty = GL_VERTEX_SHADER then "vertex".toList else "fragment".toList)
    ++ " shader.".toList

/-- `CompileShader` (lines 66-89). `id` is the handle `glCreateShader` returns,
`ok` whether the `GL_COMPILE_STATUS` query reports success (`result != 0`),
`log` the text `glGetShaderInfoLog` yields. Returns the C++ return value
together with the trace of driver calls and prints performed. -/
def CompileShader (ty : Nat) (source : List Char) (id : Nat) (ok : Bool)
    (log : List Char) : Nat × List GLEvent :=
  let pre := [GLEvent.createShader ty id, GLEvent.shaderSource id source,
              GLEvent.compileShader id, GLEvent.getShaderiv id GL_COMPILE_STATUS]
  if !ok then
    (0, pre ++ [GLEvent.getShaderiv id GL_INFO_LOG_LENGTH, GLEvent.getShaderInfoLog id,
                GLEvent.printLine (compileFailMsg ty), GLEvent.printLine log,
                GLEvent.deleteShader id])
  else
    (id, pre)

/-- `CreateShader` (lines 92-111). `prog`, `vsId`, `fsId` are the handles the
driver hands out; `vsOk`, `fsOk`, `vsLog`, `fsLog` the driver's compile
answers for each stage. -/
def CreateShader (vertexShader fragmentShader : List Char) (prog vsId fsId : Nat)
    (vsOk fsOk : Bool) (vsLog fsLog : List Char) : Nat × List GLEvent :=
  let vsr := CompileShader GL_VERTEX_SHADER vertexShader vsId vsOk vsLog
  let fsr := CompileShader GL_FRAGMENT_SHADER fragmentShader fsId fsOk fsLog
  (prog,
    GLEvent.createProgram prog :: vsr.2 ++ fsr.2 ++
      [GLEvent.attachShader prog vsr.1, GLEvent.attachShader prog fsr.1,
       GLEvent.linkProgram prog, GLEvent.validateProgram prog,
       GLEvent.deleteShader vsr.1, GLEvent.deleteShader fsr.1])

/-! ## GPU error poller

The driver error queue is a list of pending error codes; `glGetError` pops
the front code, returning `GL_NO_ERROR = 0` when the queue is empty. In a
real driver every queued code is nonzero. -/

/-- `GLClearError` (lines 15-18): pops until `glGetError` returns
`GL_NO_ERROR`; result is the queue left behind. -/
def GLClearError : List Nat → List Nat
  | [] => []
  | e :: rest => if e = 0 then rest else GLClearError rest

/-- The hexadecimal diagnostic of line 23:
`"[OpenGL Error] (0x" << std::hex << error << ")"`. -/
def glErrorMsg (e : Nat) : List Char :=
  "[OpenGL Error] (0x".toList ++ Nat.toDigits 16 e ++ ")".toList

/-- `GLCheckError` (lines 20-24): pops and prints codes until `glGetError`
returns zero. Result: the queue left behind and the printed diagnostics. -/
def GLCheckError : List Nat → List Nat × List (List Char)
  | [] => ([], [])
  | e :: rest =>
    if e = 0 then (rest, [])
    else
      let r := GLCheckError rest
      (r.1, glErrorMsg e :: r.2)

example : GLCheckError [0x500, 0x502] =
    ([], ["[OpenGL Error] (0x500)".toList, "[OpenGL Error] (0x502)".toList]) := by decide

/-- Build configuration selecting the `#ifdef DEBUG` branch (lines 9-13). -/
inductive BuildMode where
  | debug
  | release
deriving DecidableEq, Repr

/-- The `GLCall(x)` macro (lines 9-13): under `DEBUG` it expands to
`GLClearError(); x; ASSERT(GLLogCall())`; otherwise to `x` alone. -/
def GLCall (mode : BuildMode) (x : List GLEvent) : List GLEvent :=
  match mode with
  | BuildMode.debug => GLEvent.clearErrors :: x ++ [GLEvent.assertLogCall]
  | BuildMode.release => x

/-- The error polling around the draw call in the render loop (lines 186-188):
`GLClearError(); glDrawElements(...); GLCheckError();` — written out directly,
not through the `GLCall` macro, hence identical in every build mode. -/
def drawSection (_mode : BuildMode) : List GLEvent :=
  [GLEvent.clearErrors, GLEvent.drawElements, GLEvent.checkErrors]

/-- One iteration of the render loop body (lines 179-200). -/
def frameEvents : List GLEvent :=
  GLEvent.glClear :: drawSection BuildMode.release ++
    [GLEvent.swapBuffers, GLEvent.pollEvents]

/-- `main` (lines 113-205). External observables are parameters: whether
`glfwInit` / `glfwCreateWindow` / `glewInit` succeed, the lines of
`res/shaders/Basic.shader`, the GL version string, the driver's handles and
compile answers, and how many frames run before the window closes. Returns
the exit code and the trace of GL calls, prints and the process exit. -/
def mainFn (glfwInitOk createWindowOk glewOk : Bool) (fileLines : List (List Char))
    (version : List Char) (prog vsId fsId : Nat) (vsOk fsOk : Bool)
    (vsLog fsLog : List Char) (frames : Nat) : Int × List GLEvent :=
  if !glfwInitOk then (-1, [GLEvent.exitProcess (-1)])
  else if !createWindowOk then (-1, [GLEvent.exitProcess (-1)])
  else
    let glewMsg := if !glewOk then [GLEvent.printLine "GLEW INIT NOT OK".toList] else []
    let setup := glewMsg ++ [GLEvent.printLine version] ++
      [GLEvent.genBuffer, GLEvent.bindBuffer, GLEvent.bufferData,
       GLEvent.enableVertexAttribArray, GLEvent.vertexAttribPointer,
       GLEvent.genBuffer, GLEvent.bindBuffer, GLEvent.bufferData]
    let source := ParseShader fileLines
    if source.VertexSource.isEmpty || source.FragmentSource.isEmpty then
      (-1, setup ++ [GLEvent.exitProcess (-1)])
    else
      let cs := CreateShader source.VertexSource source.FragmentSource prog vsId fsId
        vsOk fsOk vsLog fsLog
      (0, setup ++ cs.2 ++ [GLEvent.useProgram cs.1] ++
        (List.replicate frames frameEvents).flatten ++
        [GLEvent.deleteProgram cs.1, GLEvent.exitProcess 0])

/-! ## Splitter lemmas -/

theorem parseLoop_spec (lines : List (List Char)) :
    ∀ (ty : ShaderType) (v f : List Char),
    parseLoop ty v f lines =
      (v ++ joinNl (sectionLines ShaderType.VERTEX ty lines),
       f ++ joinNl (sectionLines ShaderType.FRAGMENT ty lines)) := by
  induction lines with
  | nil =>
    intro ty v f
    simp [parseLoop, sectionLines, sectionOfLines, joinNl]
  | cons l rest ih =>
    intro ty v f
    by_cases h1 : hasTok l marker
    · by_cases h2 : hasTok l vertexTok
      · simp [parseLoop, sectionOfLines, sectionLines, h1, h2, ih]
      · by_cases h3 : hasTok l fragmentTok <;>
          simp [parseLoop, sectionOfLines, sectionLines, h1, h2, h3, ih]
    · cases ty <;>
        simp [parseLoop, sectionOfLines, sectionLines, joinNl, h1, ih, List.append_assoc]

theorem ParseShader_spec (lines : List (List Char)) :
    ParseShader lines =
      ⟨joinNl (sectionLines ShaderType.VERTEX ShaderType.NONE lines),
       joinNl (sectionLines ShaderType.FRAGMENT ShaderType.NONE lines)⟩ := by
  simp [ParseShader, parseLoop_spec]

theorem sectionOfLines_map_snd (lines : List (List Char)) :
    ∀ ty, (sectionOfLines ty lines).map Prod.snd =
      lines.filter (fun l => !(hasTok l marker)) := by
  induction lines with
  | nil => intro ty; simp [sectionOfLines]
  | cons l rest ih =>
    intro ty
    by_cases h1 : hasTok l marker
    · by_cases h2 : hasTok l vertexTok
      · simp [sectionOfLines, h1, h2, ih]
      · by_cases h3 : hasTok l fragmentTok <;> simp [sectionOfLines, h1, h2, h3, ih]
    · simp [sectionOfLines, h1, ih]

theorem mem_sectionOfLines (lines : List (List Char)) (ty : ShaderType)
    (p : ShaderType × List Char) (hp : p ∈ sectionOfLines ty lines) :
    p.2 ∈ lines ∧ hasTok p.2 marker = false := by
  have h := sectionOfLines_map_snd lines ty
  have h2 : p.2 ∈ (sectionOfLines ty lines).map Prod.snd := List.mem_map_of_mem _ hp
  rw [h] at h2
  have h3 := List.mem_filter.mp h2
  exact ⟨h3.1, by simpa using h3.2⟩

theorem parseLoop_none_skip (pre : List (List Char))
    (hpre : ∀ l ∈ pre, ¬(hasTok l marker = true ∧
      (hasTok l vertexTok = true ∨ hasTok l fragmentTok = true))) :
    ∀ rest v f, parseLoop ShaderType.NONE v f (pre ++ rest) =
      parseLoop ShaderType.NONE v f rest := by
  induction pre with
  | nil => intro rest v f; simp
  | cons l ls ih =>
    intro rest v f
    have hl := hpre l (List.mem_cons_self l ls)
    have ihs := ih (fun x hx => hpre x (List.mem_cons_of_mem l hx))
    by_cases h1 : hasTok l marker
    · have h2 : hasTok l vertexTok = false := by
        rcases Bool.eq_false_or_eq_true (hasTok l vertexTok) with h | h
        · exact absurd ⟨h1, Or.inl h⟩ hl
        · exact h
      have h3 : hasTok l fragmentTok = false := by
        rcases Bool.eq_false_or_eq_true (hasTok l fragmentTok) with h | h
        · exact absurd ⟨h1, Or.inr h⟩ hl
        · exact h
      simp [parseLoop, h1, h2, h3, ihs]
    · simp [parseLoop, h1, ihs]

theorem parseLoop_no_marker (lines : List (List Char))
    (h : ∀ l ∈ lines, hasTok l marker = false) :
    ∀ v f, parseLoop ShaderType.NONE v f lines = (v, f) := by
  induction lines with
  | nil => intro v f; simp [parseLoop]
  | cons l ls ih =>
    intro v f
    have h1 := h l (List.mem_cons_self l ls)
    have ihs := ih (fun x hx => h x (List.mem_cons_of_mem l hx))
    simp [parseLoop, h1, ihs]

/-- Claim C1: for every input whose every line lies under a recognized section
marker, `ParseShader`'s output contains every non-marker line exactly once, in
input order, newline-terminated, in the buffer of the section active when that
line was read; and no line containing `#shader` appears in either buffer. -/
theorem C1_split_correct (lines : List (List Char))
    (h : ∀ p ∈ sectionOfLines ShaderType.NONE lines, p.1 ≠ ShaderType.NONE) :
    (ParseShader lines).VertexSource =
      joinNl (sectionLines ShaderType.VERTEX ShaderType.NONE lines) ∧
    (ParseShader lines).FragmentSource =
      joinNl (sectionLines ShaderType.FRAGMENT ShaderType.NONE lines) ∧
    (sectionOfLines ShaderType.NONE lines).map Prod.snd =
      lines.filter (fun l => !(hasTok l marker)) ∧
    ∀ p ∈ sectionOfLines ShaderType.NONE lines,
      (p.1 = ShaderType.VERTEX ∨ p.1 = ShaderType.FRAGMENT) ∧
        hasTok p.2 marker = false := by
  refine ⟨?_, ?_, sectionOfLines_map_snd lines _, ?_⟩
  · rw [ParseShader_spec]
  · rw [ParseShader_spec]
  · intro p hp
    refine ⟨?_, (mem_sectionOfLines lines _ p hp).2⟩
    rcases p with ⟨pty, pl⟩
    cases pty with
    | NONE => exact absurd rfl (h ⟨ShaderType.NONE, pl⟩ hp)
    | VERTEX => exact Or.inl rfl
    | FRAGMENT => exact Or.inr rfl

theorem C1_split_correct_witness :
    (∀ p ∈ sectionOfLines ShaderType.NONE
        ["#shader vertex".toList, "a".toList, "#shader fragment".toList, "b".toList],
      p.1 ≠ ShaderType.NONE) ∧
    (ParseShader ["#shader vertex".toList, "a".toList, "#shader fragment".toList,
        "b".toList]).VertexSource =
      joinNl (sectionLines ShaderType.VERTEX ShaderType.NONE
        ["#shader vertex".toList, "a".toList, "#shader fragment".toList, "b".toList]) :=
  ⟨by decide, (C1_split_correct _ (by decide)).1⟩

/-- Claim C6: a marker line containing neither `vertex` nor `fragment` leaves
the active section and both buffers unchanged and is itself not appended; in
particular splitting `#shader vertex, a, #shader geometry, b` yields vertex
buffer `"a\nb\n"` and empty fragment buffer. -/
theorem C6_ambiguous_marker (l : List Char) (lines : List (List Char))
    (ty : ShaderType) (v f : List Char)
    (h1 : hasTok l marker = true) (h2 : hasTok l vertexTok = false)
    (h3 : hasTok l fragmentTok = false) :
    parseLoop ty v f (l :: lines) = parseLoop ty v f lines ∧
    ParseShader ["#shader vertex".toList, "a".toList, "#shader geometry".toList,
        "b".toList] = ⟨"a\nb\n".toList, []⟩ := by
  constructor
  · simp [parseLoop, h1, h2, h3]
  · decide

theorem C6_ambiguous_marker_witness :
    hasTok "#shader geometry".toList marker = true ∧
    hasTok "#shader geometry".toList vertexTok = false ∧
    hasTok "#shader geometry".toList fragmentTok = false ∧
    parseLoop ShaderType.VERTEX "x\n".toList [] ["#shader geometry".toList] =
      parseLoop ShaderType.VERTEX "x\n".toList [] [] :=
  ⟨by decide, by decide, by decide,
    (C6_ambiguous_marker "#shader geometry".toList [] ShaderType.VERTEX
      "x\n".toList [] (by decide) (by decide) (by decide)).1⟩

/-- Claim C7: lines read while the active section is still the initial `NONE`
sentinel (before the first recognized marker) are appended to neither buffer:
a prefix without a recognized marker can be removed without changing the
result; in particular `split(["foo", "#shader vertex", "bar"])` yields vertex
buffer `"bar\n"` and empty fragment buffer. -/
theorem C7_prefix_dropped (pre rest : List (List Char))
    (hpre : ∀ l ∈ pre, ¬(hasTok l marker = true ∧
      (hasTok l vertexTok = true ∨ hasTok l fragmentTok = true))) :
    ParseShader (pre ++ rest) = ParseShader rest ∧
    ParseShader ["foo".toList, "#shader vertex".toList, "bar".toList] =
      ⟨"bar\n".toList, []⟩ := by
  constructor
  · simp [ParseShader, parseLoop_none_skip pre hpre]
  · decide

theorem C7_prefix_dropped_witness :
    ParseShader (["foo".toList] ++ ["#shader vertex".toList, "bar".toList]) =
      ParseShader ["#shader vertex".toList, "bar".toList] :=
  (C7_prefix_dropped ["foo".toList] ["#shader vertex".toList, "bar".toList]
    (by decide)).1

/-- Claim C8: an unreadable input (the line stream yields no lines) parses to
two empty buffers, and so does any readable input containing no `#shader`
marker — the two cases are indistinguishable from the output. -/
theorem C8_empty_stream (lines : List (List Char))
    (h : ∀ l ∈ lines, hasTok l marker = false) :
    ParseShader [] = ⟨[], []⟩ ∧ ParseShader lines = ⟨[], []⟩ := by
  constructor
  · decide
  · simp [ParseShader, parseLoop_no_marker lines h]

theorem C8_empty_stream_witness :
    ParseShader [] = ⟨[], []⟩ ∧
    ParseShader ["hello".toList, "world".toList] = ⟨[], []⟩ :=
  C8_empty_stream ["hello".toList, "world".toList] (by decide)

/-! ## Round-trip lemmas -/

theorem getLinesAux_newline (a : List Char) (hna : '\n' ∉ a) :
    ∀ (acc t : List Char),
      getLinesAux acc (a ++ '\n' :: t) = (acc.reverse ++ a) :: getLines t := by
  induction a with
  | nil =>
    intro acc t
    cases t with
    | nil => simp [getLinesAux, getLines]
    | cons c cs => simp [getLinesAux, getLines]
  | cons c cs ih =>
    intro acc t
    have hc : ¬(c = '\n') := fun hx => hna (hx ▸ List.mem_cons_self c cs)
    have hcs : '\n' ∉ cs := fun hx => hna (List.mem_cons_of_mem c hx)
    simp [getLinesAux, hc, ih hcs]

theorem getLines_newline (a t : List Char) (hna : '\n' ∉ a) :
    getLines (a ++ '\n' :: t) = a :: getLines t := by
  have h := getLinesAux_newline a hna [] t
  simp at h
  cases a with
  | nil => simpa [getLines] using h
  | cons c cs => simpa [getLines] using h

theorem getLines_joinNl (ls : List (List Char)) (h : ∀ l ∈ ls, '\n' ∉ l) :
    ∀ rest, getLines (joinNl ls ++ rest) = ls ++ getLines rest := by
  induction ls with
  | nil => intro rest; simp [joinNl]
  | cons a as ih =>
    intro rest
    have ha := h a (List.mem_cons_self a as)
    have has : ∀ l ∈ as, '\n' ∉ l := fun l hl => h l (List.mem_cons_of_mem a hl)
    have he : joinNl (a :: as) ++ rest = a ++ '\n' :: (joinNl as ++ rest) := by
      simp [joinNl]
    rw [he, getLines_newline _ _ ha, ih has]
    simp

theorem parseLoop_vertex_append (ls : List (List Char))
    (h : ∀ l ∈ ls, hasTok l marker = false) :
    ∀ rest v f, parseLoop ShaderType.VERTEX v f (ls ++ rest) =
      parseLoop ShaderType.VERTEX (v ++ joinNl ls) f rest := by
  induction ls with
  | nil => intro rest v f; simp [joinNl]
  | cons a as ih =>
    intro rest v f
    have ha := h a (List.mem_cons_self a as)
    have has : ∀ l ∈ as, hasTok l marker = false :=
      fun l hl => h l (List.mem_cons_of_mem a hl)
    simp [parseLoop, ha, ih has, joinNl, List.append_assoc]

theorem parseLoop_fragment_append (ls : List (List Char))
    (h : ∀ l ∈ ls, hasTok l marker = false) :
    ∀ rest v f, parseLoop ShaderType.FRAGMENT v f (ls ++ rest) =
      parseLoop ShaderType.FRAGMENT v (f ++ joinNl ls) rest := by
  induction ls with
  | nil => intro rest v f; simp [joinNl]
  | cons a as ih =>
    intro rest v f
    have ha := h a (List.mem_cons_self a as)
    have has : ∀ l ∈ as, hasTok l marker = false :=
      fun l hl => h l (List.mem_cons_of_mem a hl)
    simp [parseLoop, ha, ih has, joinNl, List.append_assoc]

theorem mem_sectionLines (lines : List (List Char)) (tgt ty : ShaderType)
    (l : List Char) (hl : l ∈ sectionLines tgt ty lines) :
    l ∈ lines ∧ hasTok l marker = false := by
  unfold sectionLines at hl
  obtain ⟨p, hp, hpe⟩ := List.mem_map.mp hl
  have hpf := List.mem_filter.mp hp
  have hm := mem_sectionOfLines lines ty p hpf.1
  exact hpe ▸ ⟨hm.1, hm.2⟩

theorem parse_rewrap (vs fs : List (List Char))
    (hvs : ∀ l ∈ vs, hasTok l marker = false)
    (hfs : ∀ l ∈ fs, hasTok l marker = false)
    (hvn : ∀ l ∈ vs, '\n' ∉ l) (hfn : ∀ l ∈ fs, '\n' ∉ l) :
    ParseShader (getLines ("#shader vertex".toList ++ '\n' ::
      (joinNl vs ++ ("#shader fragment".toList ++ '\n' :: joinNl fs)))) =
      ⟨joinNl vs, joinNl fs⟩ := by
  have h1 : getLines ("#shader vertex".toList ++ '\n' ::
      (joinNl vs ++ ("#shader fragment".toList ++ '\n' :: joinNl fs))) =
      "#shader vertex".toList :: (vs ++ "#shader fragment".toList :: fs) := by
    rw [getLines_newline _ _ (by decide), getLines_joinNl vs hvn,
      getLines_newline _ _ (by decide)]
    have h0 : getLines ([] : List Char) = [] := rfl
    have h2 := getLines_joinNl fs hfn []
    rw [List.append_nil, h0, List.append_nil] at h2
    rw [h2]
  rw [h1]
  have hm1 : hasTok "#shader vertex".toList marker = true := by decide
  have hm2 : hasTok "#shader vertex".toList vertexTok = true := by decide
  have hg1 : hasTok "#shader fragment".toList marker = true := by decide
  have hg2 : hasTok "#shader fragment".toList vertexTok = false := by decide
  have hg3 : hasTok "#shader fragment".toList fragmentTok = true := by decide
  simp only [ParseShader, parseLoop, hm1, hm2, if_true]
  rw [parseLoop_vertex_append vs hvs]
  simp only [parseLoop, hg1, hg2, hg3, if_true, if_false, Bool.false_eq_true,
    List.nil_append]
  have h3 := parseLoop_fragment_append fs hfs [] (joinNl vs) []
  simp [parseLoop] at h3
  rw [h3]

theorem parse_roundtrip_of_lines (lines : List (List Char))
    (h : ∀ l ∈ lines, '\n' ∉ l) :
    ParseShader (getLines ("#shader vertex".toList ++ '\n' ::
      ((ParseShader lines).VertexSource ++ ("#shader fragment".toList ++ '\n' ::
        (ParseShader lines).FragmentSource)))) = ParseShader lines := by
  rw [ParseShader_spec lines]
  exact parse_rewrap _ _
    (fun l hl => (mem_sectionLines lines _ _ l hl).2)
    (fun l hl => (mem_sectionLines lines _ _ l hl).2)
    (fun l hl => h l (mem_sectionLines lines _ _ l hl).1)
    (fun l hl => h l (mem_sectionLines lines _ _ l hl).1)

theorem getLinesAux_no_newline (cs : List Char) :
    ∀ acc, (∀ c ∈ acc, c ≠ '\n') →
      ∀ l ∈ getLinesAux acc cs, '\n' ∉ l := by
  induction cs with
  | nil =>
    intro acc hacc l hl hn
    simp [getLinesAux] at hl
    rw [hl] at hn
    exact hacc '\n' (List.mem_reverse.mp hn) rfl
  | cons c rest ih =>
    intro acc hacc l hl hn
    by_cases hc : c = '\n'
    · simp [getLinesAux, hc] at hl
      rcases hl with hl | hl
      · rw [hl] at hn
        exact hacc '\n' (List.mem_reverse.mp hn) rfl
      · cases rest with
        | nil => simp at hl
        | cons d ds => exact ih [] (by simp) l hl hn
    · simp [getLinesAux, hc] at hl
      refine ih (c :: acc) ?_ l hl hn
      intro x hx
      rcases List.mem_cons.mp hx with hx | hx
      · exact hx ▸ hc
      · exact hacc x hx

/-- Every line `getline` extracts is free of the newline delimiter. -/
theorem getLines_no_newline (cs : List Char) : ∀ l ∈ getLines cs, '\n' ∉ l := by
  cases cs with
  | nil => intro l hl; simp [getLines] at hl
  | cons c rest => exact getLinesAux_no_newline (c :: rest) [] (by simp)

/-- Claim C4: round-trip — for every input character stream, re-splitting the
concatenation of a prior split's two output buffers, each re-wrapped under its
own marker line (`#shader vertex` before the vertex buffer, `#shader fragment`
before the fragment buffer), reproduces exactly the same two buffers. -/
theorem C4_roundtrip (content : List Char) :
    ParseShader (getLines ("#shader vertex".toList ++ '\n' ::
      ((ParseShader (getLines content)).VertexSource ++
        ("#shader fragment".toList ++ '\n' ::
          (ParseShader (getLines content)).FragmentSource)))) =
      ParseShader (getLines content) :=
  parse_roundtrip_of_lines (getLines content) (getLines_no_newline content)

/-! ## Compiler and linker claims -/

theorem mem_compile_trace (ty : Nat) (src : List Char) (id : Nat) (ok : Bool)
    (log : List Char) :
    GLEvent.createShader ty id ∈ (CompileShader ty src id ok log).2 ∧
    GLEvent.compileShader id ∈ (CompileShader ty src id ok log).2 := by
  cases ok <;> simp [CompileShader]

/-- Claim C3: for every stage kind and source text, when the compile-status
query reports failure `CompileShader` retrieves the info log, prints a
diagnostic naming the failed stage (`vertex` for `GL_VERTEX_SHADER`,
`fragment` for `GL_FRAGMENT_SHADER`) together with the log body, deletes the
shader object, and returns the sentinel 0 without terminating the process;
when the query reports success it returns the created handle unchanged, with
no deletion and no info-log retrieval. -/
theorem C3_compile_error_path (ty : Nat) (src : List Char) (id : Nat)
    (log : List Char) :
    (CompileShader ty src id false log).1 = 0 ∧
    GLEvent.getShaderInfoLog id ∈ (CompileShader ty src id false log).2 ∧
    GLEvent.printLine (compileFailMsg ty) ∈ (CompileShader ty src id false log).2 ∧
    GLEvent.printLine log ∈ (CompileShader ty src id false log).2 ∧
    GLEvent.deleteShader id ∈ (CompileShader ty src id false log).2 ∧
    hasTok (compileFailMsg GL_VERTEX_SHADER) vertexTok = true ∧
    hasTok (compileFailMsg GL_FRAGMENT_SHADER) fragmentTok = true ∧
    (CompileShader ty src id true log).1 = id ∧
    GLEvent.deleteShader id ∉ (CompileShader ty src id true log).2 ∧
    (∀ s, GLEvent.getShaderInfoLog s ∉ (CompileShader ty src id true log).2) ∧
    (∀ c, GLEvent.exitProcess c ∉ (CompileShader ty src id false log).2) ∧
    (∀ c, GLEvent.exitProcess c ∉ (CompileShader ty src id true log).2) := by
  refine ⟨by simp [CompileShader], by simp [CompileShader], by simp [CompileShader],
    by simp [CompileShader], by simp [CompileShader], by decide, by decide,
    by simp [CompileShader], by simp [CompileShader],
    fun s => by simp [CompileShader], fun c => by simp [CompileShader],
    fun c => by simp [CompileShader]⟩

/-- Claim C5: `CreateShader` compiles both stages independently, attaches both
resulting stage handles to the program — even a 0 handle from a failed
compile — links and validates without ever querying link or validate status,
deletes both intermediate stage handles after the link, and returns the
program handle. -/
theorem C5_create_shader (vsSrc fsSrc : List Char) (prog vsId fsId : Nat)
    (vsOk fsOk : Bool) (vsLog fsLog : List Char) :
    (CreateShader vsSrc fsSrc prog vsId fsId vsOk fsOk vsLog fsLog).1 = prog ∧
    GLEvent.compileShader vsId ∈
      (CreateShader vsSrc fsSrc prog vsId fsId vsOk fsOk vsLog fsLog).2 ∧
    GLEvent.compileShader fsId ∈
      (CreateShader vsSrc fsSrc prog vsId fsId vsOk fsOk vsLog fsLog).2 ∧
    GLEvent.attachShader prog (CompileShader GL_VERTEX_SHADER vsSrc vsId vsOk vsLog).1 ∈
      (CreateShader vsSrc fsSrc prog vsId fsId vsOk fsOk vsLog fsLog).2 ∧
    GLEvent.attachShader prog (CompileShader GL_FRAGMENT_SHADER fsSrc fsId fsOk fsLog).1 ∈
      (CreateShader vsSrc fsSrc prog vsId fsId vsOk fsOk vsLog fsLog).2 ∧
    (vsOk = false → GLEvent.attachShader prog 0 ∈
      (CreateShader vsSrc fsSrc prog vsId fsId vsOk fsOk vsLog fsLog).2) ∧
    GLEvent.linkProgram prog ∈
      (CreateShader vsSrc fsSrc prog vsId fsId vsOk fsOk vsLog fsLog).2 ∧
    GLEvent.validateProgram prog ∈
      (CreateShader vsSrc fsSrc prog vsId fsId vsOk fsOk vsLog fsLog).2 ∧
    (∀ p q, GLEvent.getProgramiv p q ∉
      (CreateShader vsSrc fsSrc prog vsId fsId vsOk fsOk vsLog fsLog).2) ∧
    (∃ pre post,
      (CreateShader vsSrc fsSrc prog vsId fsId vsOk fsOk vsLog fsLog).2 =
        pre ++ GLEvent.linkProgram prog :: post ∧
      GLEvent.deleteShader (CompileShader GL_VERTEX_SHADER vsSrc vsId vsOk vsLog).1 ∈ post ∧
      GLEvent.deleteShader (CompileShader GL_FRAGMENT_SHADER fsSrc fsId fsOk fsLog).1 ∈ post) := by
  refine ⟨rfl, ?_, ?_, ?_, ?_, ?_, ?_, ?_, ?_, ?_⟩
  · cases vsOk <;> cases fsOk <;> simp [CreateShader, CompileShader]
  · cases vsOk <;> cases fsOk <;> simp [CreateShader, CompileShader]
  · cases vsOk <;> cases fsOk <;> simp [CreateShader, CompileShader]
  · cases vsOk <;> cases fsOk <;> simp [CreateShader, CompileShader]
  · intro hv
    subst hv
    cases fsOk <;> simp [CreateShader, CompileShader]
  · cases vsOk <;> cases fsOk <;> simp [CreateShader, CompileShader]
  · cases vsOk <;> cases fsOk <;> simp [CreateShader, CompileShader]
  · intro p q
    cases vsOk <;> cases fsOk <;> simp [CreateShader, CompileShader]
  · refine ⟨GLEvent.createProgram prog ::
        ((CompileShader GL_VERTEX_SHADER vsSrc vsId vsOk vsLog).2 ++
          (CompileShader GL_FRAGMENT_SHADER fsSrc fsId fsOk fsLog).2 ++
          [GLEvent.attachShader prog (CompileShader GL_VERTEX_SHADER vsSrc vsId vsOk vsLog).1,
           GLEvent.attachShader prog (CompileShader GL_FRAGMENT_SHADER fsSrc fsId fsOk fsLog).1]),
      [GLEvent.validateProgram prog,
       GLEvent.deleteShader (CompileShader GL_VERTEX_SHADER vsSrc vsId vsOk vsLog).1,
       GLEvent.deleteShader (CompileShader GL_FRAGMENT_SHADER fsSrc fsId fsOk fsLog).1],
      ?_, by simp, by simp⟩
    simp [CreateShader, List.append_assoc]

/-! ## Error poller and main-path claims -/

theorem GLCheckError_drains (q : List Nat) (h : ∀ e ∈ q, e ≠ 0) :
    GLCheckError q = ([], q.map glErrorMsg) := by
  induction q with
  | nil => simp [GLCheckError]
  | cons e rest ih =>
    have he := h e (List.mem_cons_self e rest)
    have ihs := ih (fun x hx => h x (List.mem_cons_of_mem e hx))
    simp [GLCheckError, he, ihs]

/-- Claim C9 counterexample: in a non-debug (release) build the error polling
around the draw call is NOT compiled out: the draw section of the render loop
still performs `GLClearError` and `GLCheckError`, because lines 186-188 call
them directly rather than through the `GLCall` macro. -/
theorem C9_counterexample :
    GLEvent.clearErrors ∈ drawSection BuildMode.release ∧
    GLEvent.checkErrors ∈ drawSection BuildMode.release ∧
    drawSection BuildMode.release ≠ [GLEvent.drawElements] := by decide

/-- Claim C9 amended: `GLCheckError` drains the driver error queue, printing
each pending code in hexadecimal until the queue is empty and touching nothing
else; the `GLCall` wrapper macro does expand to the bare wrapped call in
non-debug builds; but the polling around the draw call is written out
directly, not through `GLCall`, so it performs the same operations in every
build mode. -/
theorem C9_amended (q : List Nat) (h : ∀ e ∈ q, e ≠ 0) :
    GLCheckError q = ([], q.map glErrorMsg) ∧
    (∀ x, GLCall BuildMode.release x = x) ∧
    (∀ m, drawSection m =
      [GLEvent.clearErrors, GLEvent.drawElements, GLEvent.checkErrors]) :=
  ⟨GLCheckError_drains q h, fun _ => rfl, fun _ => rfl⟩

theorem C9_amended_witness :
    (∀ e ∈ [0x500, 0x502], e ≠ 0) ∧
    GLCheckError [0x500, 0x502] = ([], [0x500, 0x502].map glErrorMsg) ∧
    glErrorMsg 0x500 = "[OpenGL Error] (0x500)".toList :=
  ⟨by decide, (C9_amended [0x500, 0x502] (by decide)).1, by decide⟩

/-- Claim C2 counterexample: a parsed input with only the vertex section
(fragment buffer empty, vertex buffer nonempty) IS detected as an error by the
caller: `main` returns -1 at the parsed-source check and never reaches
`CreateShader` — refuting that the fatal check fires only when both parsed
sources are empty. -/
theorem C2_counterexample :
    (ParseShader ["#shader vertex".toList, "a".toList]).VertexSource ≠ [] ∧
    (ParseShader ["#shader vertex".toList, "a".toList]).FragmentSource = [] ∧
    (mainFn true true true ["#shader vertex".toList, "a".toList] "4.6".toList
      1 2 3 true true [] [] 0).1 = -1 ∧
    (mainFn true true true ["#shader vertex".toList, "a".toList] "4.6".toList
      1 2 3 true true [] [] 0).2 =
      [GLEvent.printLine "4.6".toList, GLEvent.genBuffer, GLEvent.bindBuffer,
       GLEvent.bufferData, GLEvent.enableVertexAttribArray,
       GLEvent.vertexAttribPointer, GLEvent.genBuffer, GLEvent.bindBuffer,
       GLEvent.bufferData, GLEvent.exitProcess (-1)] := by decide

/-- Claim C2 amended: the caller's fatal empty-source check fires exactly when
EITHER parsed source is empty (`||` at line 172): with windowing successful,
`main` exits with -1 at the check iff the vertex buffer or the fragment buffer
is empty, so a file with only one valid section is rejected there, before any
compile or link. -/
theorem C2_amended (glewOk : Bool) (fileLines : List (List Char))
    (version : List Char) (prog vsId fsId : Nat) (vsOk fsOk : Bool)
    (vsLog fsLog : List Char) (frames : Nat) :
    (mainFn true true glewOk fileLines version prog vsId fsId vsOk fsOk vsLog
        fsLog frames).1 = -1 ↔
      ((ParseShader fileLines).VertexSource = [] ∨
        (ParseShader fileLines).FragmentSource = []) := by
  rcases Bool.eq_false_or_eq_true ((ParseShader fileLines).VertexSource.isEmpty
      || (ParseShader fileLines).FragmentSource.isEmpty) with hc | hc
  · have hd : (ParseShader fileLines).VertexSource.isEmpty = true ∨
        (ParseShader fileLines).FragmentSource.isEmpty = true := by
      simpa using hc
    simp only [mainFn, Bool.not_true, Bool.false_eq_true, if_false, hc, if_true]
    constructor
    · intro _
      rcases hd with h | h
      · exact Or.inl (List.isEmpty_iff.mp h)
      · exact Or.inr (List.isEmpty_iff.mp h)
    · intro _
      trivial
  · have hd : (ParseShader fileLines).VertexSource.isEmpty = false ∧
        (ParseShader fileLines).FragmentSource.isEmpty = false := by
      simpa using hc
    simp only [mainFn, Bool.not_true, Bool.false_eq_true, if_false, hc]
    constructor
    · intro h0
      exact absurd h0 (by decide)
    · intro hor
      rcases hor with h | h
      · exact absurd (List.isEmpty_iff.mpr h) (by simp [hd.1])
      · exact absurd (List.isEmpty_iff.mpr h) (by simp [hd.2])

/-- Claim C10: whenever `main` returns -1 at the parsed-source check
(windowing succeeded but a parsed source is empty), `CreateShader` has not
been invoked: the trace contains no program creation, no shader-stage
creation, no attach, no link and no program bind. -/
theorem C10_no_gpu_objects_on_abort (glewOk : Bool) (fileLines : List (List Char))
    (version : List Char) (prog vsId fsId : Nat) (vsOk fsOk : Bool)
    (vsLog fsLog : List Char) (frames : Nat)
    (h : (ParseShader fileLines).VertexSource = [] ∨
      (ParseShader fileLines).FragmentSource = []) :
    (mainFn true true glewOk fileLines version prog vsId fsId vsOk fsOk vsLog
        fsLog frames).1 = -1 ∧
    ∀ p i,
      GLEvent.createProgram p ∉ (mainFn true true glewOk fileLines version prog
        vsId fsId vsOk fsOk vsLog fsLog frames).2 ∧
      GLEvent.createShader p i ∉ (mainFn true true glewOk fileLines version prog
        vsId fsId vsOk fsOk vsLog fsLog frames).2 ∧
      GLEvent.attachShader p i ∉ (mainFn true true glewOk fileLines version prog
        vsId fsId vsOk fsOk vsLog fsLog frames).2 ∧
      GLEvent.linkProgram p ∉ (mainFn true true glewOk fileLines version prog
        vsId fsId vsOk fsOk vsLog fsLog frames).2 ∧
      GLEvent.useProgram p ∉ (mainFn true true glewOk fileLines version prog
        vsId fsId vsOk fsOk vsLog fsLog frames).2 := by
  have hc : ((ParseShader fileLines).VertexSource.isEmpty
      || (ParseShader fileLines).FragmentSource.isEmpty) = true := by
    rcases h with h | h
    · simp [List.isEmpty_iff.mpr h]
    · simp [List.isEmpty_iff.mpr h]
  constructor
  · simp only [mainFn, Bool.not_true, Bool.false_eq_true, if_false, hc, if_true]
  · intro p i
    cases glewOk <;>
      simp [mainFn, hc]

theorem C10_no_gpu_objects_on_abort_witness :
    (mainFn true true true [] "4.6".toList 1 2 3 true true [] [] 0).1 = -1 ∧
    GLEvent.createProgram 5 ∉
      (mainFn true true true [] "4.6".toList 1 2 3 true true [] [] 0).2 ∧
    GLEvent.createShader 5 6 ∉
      (mainFn true true true [] "4.6".toList 1 2 3 true true [] [] 0).2 := by
  have h := C10_no_gpu_objects_on_abort true [] "4.6".toList 1 2 3 true true
    [] [] 0 (Or.inl (by decide))
  exact ⟨h.1, (h.2 5 6).1, (h.2 5 6).2.1⟩
